import Mathlib

/-!
Shallow embedding of the artifact resolution and caching pipeline of
src/index.mjs (chunky-pr-as-update-site).

External collaborators (the GitHub HTTP API, the filesystem, the yauzl zip
reader and the node:crypto hash primitives) are modelled as explicit
parameters: HTTP responses as values of `FetchOutcome`, the filesystem as a
function from paths to optional byte buffers, zip parsing as a function
`Bytes -> ZipParse`, and the raw hash functions as parameters
`Bytes -> Bytes`. Everything the JavaScript code itself does (filtering
workflow runs, cache read/write ordering, hex encodings, uppercasing,
response selection) is translated directly.

Side effects that the claims talk about (network calls, cache reads and
writes, error logging) are made observable as an explicit `Effect` trace
returned next to each result.
-/

namespace ChunkyPR

/-- Byte buffers are lists of byte values. -/
abbrev Bytes := List Nat

/-- Projection of a GitHub workflow run record, as read by src/index.mjs
(fields id, head_sha, created_at, status, conclusion, artifacts_url).
`created_at` is modelled as a numeric timestamp; `conclusion` is `none`
when the JSON field is null/absent. -/
structure WorkflowRun where
  id : Nat
  head_sha : String
  created_at : Nat
  status : String
  conclusion : Option String
  artifacts_url : String
deriving Repr, DecidableEq

/-- Predicate of src/index.mjs lines 44-46 and 54-56:
`run.status === "completed" && run.conclusion === "success"`. -/
def isSuccessfulRun (run : WorkflowRun) : Bool :=
  run.status == "completed" && run.conclusion == some "success"

/-- Selection of `workflows.workflow_runs.find(...)` in both locators:
the first run of the upstream list that is completed and successful. -/
def selectRun (runs : List WorkflowRun) : Option WorkflowRun :=
  runs.find? isSuccessfulRun

/-- Model of a completed HTTP exchange: `ok` is `res.ok` (2xx status) and
`body` is the JSON-decoded body, `none` when `res.json()` throws because
the body is not valid JSON. Note that src/index.mjs never consults `ok`
in the locator functions. -/
structure HttpJsonResponse (α : Type) where
  ok : Bool
  body : Option α
deriving Repr

/-- Outcome of a `fetch` call: either the promise rejects (network error)
or a response arrives. -/
inductive FetchOutcome (α : Type) where
  | netError : FetchOutcome α
  | response : HttpJsonResponse α → FetchOutcome α

/-- JSON body of `GET pulls/{n}` as consumed by the code: only
`pull.head.sha` is read; `head = none` models a body without a usable
head object (the code comments this case as "PR not found"). -/
structure PullBody where
  head : Option String
deriving Repr, DecidableEq

/-- JSON body of `GET actions/runs`: only `workflow_runs` is read;
`none` models a body (for example a GitHub error object) without that
field, on which `.find` raises a TypeError. -/
structure RunsBody where
  workflow_runs : Option (List WorkflowRun)
deriving Repr, DecidableEq

/-- Result of a locator call as seen by its awaiting caller:
`thrown` when the underlying promise rejects or a TypeError escapes,
`notFound` when the function returns null/undefined, `found` otherwise. -/
inductive LocateResult where
  | thrown
  | notFound
  | found (run : WorkflowRun)
deriving Repr, DecidableEq

/-- Embedding of `getWorkflowRunsForPullRequest` (src/index.mjs lines
28-47). The two `fetch` outcomes are passed in as parameters,
second one being the `actions/runs?event=pull_request&head_sha=...`
response that would be received when the PR lookup succeeds. -/
def getWorkflowRunsForPullRequest (pullFetch : FetchOutcome PullBody)
    (runsFetch : FetchOutcome RunsBody) : LocateResult :=
  match pullFetch with
  | .netError => .thrown
  | .response pres =>
    match pres.body with
    | none => .thrown
    | some pull =>
      match pull.head with
      | none => .notFound
      | some _sha =>
        match runsFetch with
        | .netError => .thrown
        | .response rres =>
          match rres.body with
          | none => .thrown
          | some workflows =>
            match workflows.workflow_runs with
            | none => .thrown
            | some runs =>
              match selectRun runs with
              | none => .notFound
              | some run => .found run

/-- Embedding of `getWorkflowRunsForBranch` (src/index.mjs lines 49-57). -/
def getWorkflowRunsForBranch (runsFetch : FetchOutcome RunsBody) : LocateResult :=
  match runsFetch with
  | .netError => .thrown
  | .response rres =>
    match rres.body with
    | none => .thrown
    | some workflows =>
      match workflows.workflow_runs with
      | none => .thrown
      | some runs =>
        match selectRun runs with
        | none => .notFound
        | some run => .found run

/-- Filesystem model: a path either holds a byte buffer or is absent
(readFile at an absent path throws, which the code catches). -/
abbrev FileSystem := String → Option Bytes

/-- Default value of RUN_ARTIFACTS_PATH in src/index.mjs line 18. -/
def RUN_ARTIFACTS_PATH : String := "./run_artifacts"

/-- Path derivation of src/index.mjs line 70:
join(RUN_ARTIFACTS_PATH, run.id + ".zip"). -/
def artifactCachePath (runId : Nat) : String :=
  RUN_ARTIFACTS_PATH ++ "/" ++ toString runId ++ ".zip"

/-- Cache write: the successful effect of `writeFileAtomic(artifactCachePath,
zipBuffer, ...)` (src/index.mjs line 114) on the filesystem. -/
def store (fs : FileSystem) (runId : Nat) (bytes : Bytes) : FileSystem :=
  fun p => if p = artifactCachePath runId then some bytes else fs p

/-- Cache read: `readFile(artifactCachePath)` (src/index.mjs line 74),
`none` meaning the read threw because the file is absent. -/
def load (fs : FileSystem) (runId : Nat) : Option Bytes :=
  fs (artifactCachePath runId)

/-- One entry of the downloaded zip archive as surfaced by yauzl:
its file name, the declared uncompressed size from the zip metadata, and
the decompressed content bytes. -/
structure ZipEntry where
  fileName : String
  uncompressedSize : Nat
  content : Bytes
deriving Repr, DecidableEq

/-- Outcome of `yauzl.fromBuffer` followed by reading the first entry:
either the buffer is not a valid zip (the promise rejects) or the first
entry is produced. -/
inductive ZipParse where
  | corrupt
  | entry (e : ZipEntry)
deriving Repr, DecidableEq

/-- Projection of a GitHub artifact record: only `name` and
`archive_download_url` are read by the code. -/
structure Artifact where
  name : String
  archive_download_url : String
deriving Repr, DecidableEq

/-- Responses the external world would give to the network and
filesystem calls of `getChunkyCoreJar` on the cache-miss path:
the artifact list body, whether the archive download responds with a
2xx status, the downloaded bytes, and whether the `writeFileAtomic`
cache store would fail. -/
structure FetchWorld where
  artifactsList : List Artifact
  downloadOk : Bool
  downloadBody : Bytes
  storeFails : Bool
deriving Repr, DecidableEq

/-- Observable side effects of the pipeline, in order of occurrence. -/
inductive Effect where
  | cacheRead (path : String)
  | fetchArtifactsList (url : String)
  | fetchArchive (url : String)
  | cacheWrite (path : String) (bytes : Bytes)
  | logError (msg : String)
deriving Repr, DecidableEq

/-- Result of `getChunkyCoreJar` as seen by its awaiting caller:
`empty` is the bare `return {}` (so `zipFile == null` at the caller),
`corruptThrown` is the rejected yauzl promise, and `entryFound e fc`
is the resolved `{zipFile, entry, ...}` with `fc` the internal
`fromCache` flag (true when the archive came from the on-disk cache,
in which case no cache write is attempted). -/
inductive ObtainResult where
  | empty
  | corruptThrown
  | entryFound (e : ZipEntry) (fromCache : Bool)
deriving Repr, DecidableEq

/-- Expected artifact name, src/index.mjs line 84. -/
def chunkyCoreArtifactName : String := "Chunky Core"

/-- Log line of src/index.mjs line 116. -/
def cacheFailLog (runId : Nat) : String :=
  "caching artifacts of run " ++ toString runId ++ " failed"

/-- Embedding of `getChunkyCoreJar` (src/index.mjs lines 69-123).
Control flow of the source: try the cache first (setting `fromCache`);
on a miss, fetch the artifact list, find the artifact named
"Chunky Core" (returning `{}` if absent), download it (returning `{}`
on a non-ok status); then parse the buffer with yauzl and read the
first entry, attempting the best-effort cache store (with a logged,
swallowed failure) only when the buffer was freshly fetched. -/
def getChunkyCoreJar (fs : FileSystem) (parseZip : Bytes → ZipParse)
    (world : FetchWorld) (run : WorkflowRun) : ObtainResult × List Effect :=
  let path := artifactCachePath run.id
  match fs path with
  | some cached =>
    match parseZip cached with
    | .corrupt => (.corruptThrown, [.cacheRead path])
    | .entry e => (.entryFound e true, [.cacheRead path])
  | none =>
    match world.artifactsList.find? (fun a => a.name == chunkyCoreArtifactName) with
    | none => (.empty, [.cacheRead path, .fetchArtifactsList run.artifacts_url])
    | some chunkyBuild =>
      if world.downloadOk = false then
        (.empty, [.cacheRead path, .fetchArtifactsList run.artifacts_url,
                  .fetchArchive chunkyBuild.archive_download_url])
      else
        match parseZip world.downloadBody with
        | .corrupt =>
          (.corruptThrown, [.cacheRead path, .fetchArtifactsList run.artifacts_url,
                            .fetchArchive chunkyBuild.archive_download_url])
        | .entry e =>
          (.entryFound e false,
            [.cacheRead path, .fetchArtifactsList run.artifacts_url,
             .fetchArchive chunkyBuild.archive_download_url,
             .cacheWrite path world.downloadBody]
            ++ (if world.storeFails then [.logError (cacheFailLog run.id)] else []))

/-- Lowercase hex digit character for a nibble (node:crypto "hex"
encoding uses lowercase digits). -/
def hexDigitLower (n : Nat) : Char :=
  let m := n % 16
  if m < 10 then Char.ofNat (48 + m) else Char.ofNat (97 + (m - 10))

/-- Uppercase hex digit character for a nibble. -/
def hexDigitUpper (n : Nat) : Char :=
  let m := n % 16
  if m < 10 then Char.ofNat (48 + m) else Char.ofNat (65 + (m - 10))

/-- Lowercase hexadecimal encoding of a byte buffer, high nibble first,
as produced by `hash.setEncoding("hex")` on the digest bytes. -/
def hexEncodeLower (bs : Bytes) : String :=
  ⟨bs.foldr (fun b acc => hexDigitLower (b / 16) :: hexDigitLower (b % 16) :: acc) []⟩

/-- Uppercase hexadecimal encoding of a byte buffer, high nibble first. -/
def hexEncodeUpper (bs : Bytes) : String :=
  ⟨bs.foldr (fun b acc => hexDigitUpper (b / 16) :: hexDigitUpper (b % 16) :: acc) []⟩

/-- Model of the JavaScript `String.prototype.toUpperCase` as used on
ASCII hex strings. -/
def toUpperCase (s : String) : String :=
  ⟨s.data.map Char.toUpper⟩

/-- Digest of one hash pass in `serveJsonForWorkflowRun`
(src/index.mjs lines 142-159): the raw hash of the streamed content,
hex-encoded by the hash object and uppercased by the code. `hash` is the
external node:crypto primitive, given as the raw digest-bytes function. -/
def computeDigest (hash : Bytes → Bytes) (content : Bytes) : String :=
  toUpperCase (hexEncodeLower (hash content))

/-- Embedding of the dual digest computation of `serveJsonForWorkflowRun`
(src/index.mjs lines 142-159). `openStream` models
`zipFile.openReadStream(entry, cb)`: `.ok bs` invokes the callback with a
stream yielding `bs`, `.error m` invokes it with `err` set. The source
ignores `err` in both digest callbacks, so on an open error the callback
dereferences an undefined stream and throws, and the surrounding promise
never resolves: that outcome is `none`. -/
def digestEntry (openStream : ZipEntry → Except String Bytes)
    (md5 sha256 : Bytes → Bytes) (e : ZipEntry) : Option (String × String) :=
  match openStream e with
  | .error _ => none
  | .ok content => some (computeDigest md5 content, computeDigest sha256 content)

/-- One record of the `libraries` array in the served JSON. -/
structure Library where
  name : String
  md5 : String
  sha256 : String
  size : Nat
deriving Repr, DecidableEq

/-- Per-route template passed to `serveJsonForWorkflowRun`: release notes
and the fixed dependency library list. -/
structure JsonTemplate where
  notes : String
  libraries : List Library
deriving Repr, DecidableEq

/-- HTTP outcomes of the two serving functions, as distinguished by the
source: 304; 404 with the "chunky-core artifact not found in workflow
run" body; 404 with the "workflow run not found" body (produced by the
routes when the locator returns null); 500 with a message; the JSON
success body; the binary success response; or an exception escaping the
handler (rejected promise or a throw inside an event callback). -/
inductive Response where
  | notModified
  | artifactNotFound
  | runNotFound
  | internalError (msg : String)
  | jsonOk (notes : String) (name : String) (timestamp : Nat) (libraries : List Library)
  | binaryOk (contentLength : Nat) (fileName : String) (body : Bytes)
  | crash
deriving Repr, DecidableEq

/-- Model of `entry.fileName.replace(/\.jar$/, "")`: drop a final ".jar"
when present, leave the name unchanged otherwise. -/
def stripJarSuffix (s : String) : String :=
  if ".jar".data.isSuffixOf s.data then ⟨s.data.take (s.data.length - 4)⟩ else s

/-- Guard of src/index.mjs line 127:
`new Date(req.header("If-Modified-Since")) >= new Date(run.created_at)`.
The parsed If-Modified-Since value is `some t` for a valid date and
`none` when the header is absent or unparsable; `new Date` of the latter
is an Invalid Date whose NaN comparison is always false. -/
def imsNotNewer (ims : Option Nat) (createdAt : Nat) : Bool :=
  match ims with
  | none => false
  | some t => decide (createdAt ≤ t)

/-- Tail of `serveJsonForWorkflowRun` after the conditional-request check
(src/index.mjs lines 131-176): obtain the entry, 404 when
`zipFile == null`, compute both digests, and build the JSON body with
the new library prepended to the template's list. A rejected obtain
promise or a digest that never resolves surfaces as `crash`. -/
def servePipeline (fs : FileSystem) (parseZip : Bytes → ZipParse)
    (world : FetchWorld) (openStream : ZipEntry → Except String Bytes)
    (md5 sha256 : Bytes → Bytes) (run : WorkflowRun)
    (template : JsonTemplate) : Response × List Effect :=
  let r := getChunkyCoreJar fs parseZip world run
  match r.1 with
  | .empty => (.artifactNotFound, r.2)
  | .corruptThrown => (.crash, r.2)
  | .entryFound e _ =>
    match digestEntry openStream md5 sha256 e with
    | none => (.crash, r.2)
    | some ds =>
      (.jsonOk template.notes (stripJarSuffix e.fileName) run.created_at
        ({ name := e.fileName, md5 := ds.1, sha256 := ds.2,
           size := e.uncompressedSize } :: template.libraries), r.2)

/-- Embedding of `serveJsonForWorkflowRun` (src/index.mjs lines 125-176):
the 304 short-circuit happens first and performs no pipeline work. -/
def serveJsonForWorkflowRun (ims : Option Nat) (fs : FileSystem)
    (parseZip : Bytes → ZipParse) (world : FetchWorld)
    (openStream : ZipEntry → Except String Bytes)
    (md5 sha256 : Bytes → Bytes) (run : WorkflowRun)
    (template : JsonTemplate) : Response × List Effect :=
  if imsNotNewer ims run.created_at then (.notModified, [])
  else servePipeline fs parseZip world openStream md5 sha256 run template

/-- Embedding of `serveChunkyCoreJar` (src/index.mjs lines 178-202): the
binary serving path, whose `openReadStream` callback checks `err` and
answers 500 on a stream-open failure. -/
def serveChunkyCoreJar (fs : FileSystem) (parseZip : Bytes → ZipParse)
    (world : FetchWorld) (openStream : ZipEntry → Except String Bytes)
    (run : WorkflowRun) : Response × List Effect :=
  let r := getChunkyCoreJar fs parseZip world run
  match r.1 with
  | .empty => (.artifactNotFound, r.2)
  | .corruptThrown => (.crash, r.2)
  | .entryFound e _ =>
    match openStream e with
    | .error _ => (.internalError "failed to read artifact zip file", r.2)
    | .ok body => (.binaryOk e.uncompressedSize e.fileName body, r.2)

/-! Theorems. -/

/-- Helper: a successful `List.find?` returns an element satisfying the
predicate that is the first such element of the list. -/
theorem find_eq_some_first {α : Type} (p : α → Bool) (l : List α) (a : α)
    (h : l.find? p = some a) :
    p a = true ∧ ∃ l1 l2, l = l1 ++ a :: l2 ∧ ∀ x ∈ l1, p x = false := by
  induction l with
  | nil => simp at h
  | cons b l ih =>
    cases hb : p b with
    | true =>
      rw [List.find?_cons_of_pos _ hb] at h
      obtain rfl : b = a := by injection h
      exact ⟨hb, [], l, by simp, by simp⟩
    | false =>
      rw [List.find?_cons_of_neg _ (by simp [hb])] at h
      obtain ⟨hpa, l1, l2, heq, hall⟩ := ih h
      refine ⟨hpa, b :: l1, l2, by simp [heq], ?_⟩
      intro x hx
      rcases List.mem_cons.mp hx with rfl | hx
      · exact hb
      · exact hall x hx

/-- Helper: `List.find?` returns the head of the qualifying tail when
everything before it fails the predicate. -/
theorem find_eq_some_of_first {α : Type} (p : α → Bool) (l1 : List α) (a : α)
    (l2 : List α) (hpa : p a = true) (hall : ∀ x ∈ l1, p x = false) :
    (l1 ++ a :: l2).find? p = some a := by
  induction l1 with
  | nil => simp [List.find?_cons_of_pos _ hpa]
  | cons b l1 ih =>
    have hb : p b = false := hall b (by simp)
    rw [List.cons_append, List.find?_cons_of_neg _ (by simp [hb])]
    exact ih (fun x hx => hall x (by simp [hx]))

/-- Helper: a run selected by `selectRun` is completed and successful and
is the first such run of the upstream list. -/
theorem selectRun_found (runs : List WorkflowRun) (r : WorkflowRun)
    (h : selectRun runs = some r) :
    r.status = "completed" ∧ r.conclusion = some "success" ∧
      ∃ l1 l2, runs = l1 ++ r :: l2 ∧ ∀ x ∈ l1, isSuccessfulRun x = false := by
  obtain ⟨hp, l1, l2, heq, hall⟩ := find_eq_some_first _ _ _ h
  simp only [isSuccessfulRun, Bool.and_eq_true, beq_iff_eq] at hp
  exact ⟨hp.1, hp.2, l1, l2, heq, hall⟩

/-- Helper: when no run of the list is completed and successful,
`selectRun` finds nothing. -/
theorem selectRun_none (runs : List WorkflowRun)
    (h : ∀ x ∈ runs, isSuccessfulRun x = false) : selectRun runs = none := by
  rw [selectRun, List.find?_eq_none]
  intro x hx
  simp [h x hx]

/-- C1: given upstream run lists, both locators return exactly the first
completed-and-successful run of the list: any returned run is the first
one satisfying both conditions (so nothing failing either is ever
returned); conversely, whenever the list has a qualifying run the
locators do return one, namely the first; and when no run qualifies
they report NotFound. -/
theorem locator_returns_first_successful_run (okP okR : Bool) (sha : String)
    (runs : List WorkflowRun) :
    (∀ r, getWorkflowRunsForPullRequest (.response ⟨okP, some ⟨some sha⟩⟩)
        (.response ⟨okR, some ⟨some runs⟩⟩) = .found r →
      r.status = "completed" ∧ r.conclusion = some "success" ∧
        ∃ l1 l2, runs = l1 ++ r :: l2 ∧ ∀ x ∈ l1, isSuccessfulRun x = false)
  ∧ (∀ r, getWorkflowRunsForBranch (.response ⟨okR, some ⟨some runs⟩⟩) = .found r →
      r.status = "completed" ∧ r.conclusion = some "success" ∧
        ∃ l1 l2, runs = l1 ++ r :: l2 ∧ ∀ x ∈ l1, isSuccessfulRun x = false)
  ∧ ((∀ x ∈ runs, isSuccessfulRun x = false) →
      getWorkflowRunsForPullRequest (.response ⟨okP, some ⟨some sha⟩⟩)
        (.response ⟨okR, some ⟨some runs⟩⟩) = .notFound
      ∧ getWorkflowRunsForBranch (.response ⟨okR, some ⟨some runs⟩⟩) = .notFound)
  ∧ (∀ l1 r l2, runs = l1 ++ r :: l2 → isSuccessfulRun r = true →
      (∀ x ∈ l1, isSuccessfulRun x = false) →
      getWorkflowRunsForPullRequest (.response ⟨okP, some ⟨some sha⟩⟩)
        (.response ⟨okR, some ⟨some runs⟩⟩) = .found r
      ∧ getWorkflowRunsForBranch (.response ⟨okR, some ⟨some runs⟩⟩) = .found r)
  ∧ ((∃ r ∈ runs, isSuccessfulRun r = true) →
      ∃ r, getWorkflowRunsForPullRequest (.response ⟨okP, some ⟨some sha⟩⟩)
          (.response ⟨okR, some ⟨some runs⟩⟩) = .found r
        ∧ getWorkflowRunsForBranch (.response ⟨okR, some ⟨some runs⟩⟩) = .found r) := by
  have hredP : getWorkflowRunsForPullRequest (.response ⟨okP, some ⟨some sha⟩⟩)
      (.response ⟨okR, some ⟨some runs⟩⟩)
      = (match selectRun runs with
         | none => LocateResult.notFound
         | some run => LocateResult.found run) := rfl
  have hredB : getWorkflowRunsForBranch (.response ⟨okR, some ⟨some runs⟩⟩)
      = (match selectRun runs with
         | none => LocateResult.notFound
         | some run => LocateResult.found run) := rfl
  refine ⟨?_, ?_, ?_, ?_, ?_⟩
  · intro r h
    rw [hredP] at h
    cases hsel : selectRun runs with
    | none => rw [hsel] at h; exact absurd h (by simp)
    | some a =>
      rw [hsel] at h
      obtain rfl : a = r := by injection h
      exact selectRun_found runs a hsel
  · intro r h
    rw [hredB] at h
    cases hsel : selectRun runs with
    | none => rw [hsel] at h; exact absurd h (by simp)
    | some a =>
      rw [hsel] at h
      obtain rfl : a = r := by injection h
      exact selectRun_found runs a hsel
  · intro h
    rw [hredP, hredB, selectRun_none runs h]
    exact ⟨rfl, rfl⟩
  · intro l1 r l2 heq hpr hall
    have hsel : selectRun runs = some r := by
      unfold selectRun
      rw [heq]
      exact find_eq_some_of_first _ l1 r l2 hpr hall
    rw [hredP, hredB, hsel]
    exact ⟨rfl, rfl⟩
  · intro hex
    cases hsel : selectRun runs with
    | none =>
      obtain ⟨r, hr, hpr⟩ := hex
      unfold selectRun at hsel
      rw [List.find?_eq_none] at hsel
      exact absurd hpr (by simpa using hsel r hr)
    | some a =>
      exact ⟨a, by rw [hredP, hsel], by rw [hredB, hsel]⟩

/-- Sample run that is not yet completed. -/
def runPending : WorkflowRun := ⟨1, "abc", 10, "in_progress", none, "u1"⟩

/-- Sample completed and successful run. -/
def runGood : WorkflowRun := ⟨2, "abc", 20, "completed", some "success", "u2"⟩

/-- Witness for C1 at the concrete list [runPending, runGood]: both
locators actually return runGood, the first successful run. -/
theorem locator_returns_first_successful_run_witness :
    getWorkflowRunsForPullRequest (.response ⟨true, some ⟨some "abc"⟩⟩)
        (.response ⟨true, some ⟨some [runPending, runGood]⟩⟩) = .found runGood
  ∧ getWorkflowRunsForBranch
        (.response ⟨true, some ⟨some [runPending, runGood]⟩⟩) = .found runGood :=
  (locator_returns_first_successful_run true true "abc"
      [runPending, runGood]).2.2.2.1
    [runPending] runGood [] rfl (by decide) (by decide)

/-- C2: when a valid If-Modified-Since timestamp is supplied and the
resolved run's creation time is not newer than it, the pipeline answers
304 with an empty effect trace: no artifact-list lookup, no archive
fetch, no cache read or write, no zip parsing, no digest or stream
work. -/
theorem conditional_request_short_circuit (t : Nat) (fs : FileSystem)
    (parseZip : Bytes → ZipParse) (world : FetchWorld)
    (openStream : ZipEntry → Except String Bytes) (md5 sha256 : Bytes → Bytes)
    (run : WorkflowRun) (template : JsonTemplate)
    (h : run.created_at ≤ t) :
    serveJsonForWorkflowRun (some t) fs parseZip world openStream md5 sha256
      run template = (.notModified, []) := by
  simp [serveJsonForWorkflowRun, imsNotNewer, h]

/-- Witness for C2 with created_at = 20 and timestamp 20. -/
theorem conditional_request_short_circuit_witness :
    serveJsonForWorkflowRun (some 20) (fun _ => none) (fun _ => .corrupt)
      ⟨[], true, [], false⟩ (fun _ => .error "e") (fun b => b) (fun b => b)
      runGood ⟨"notes", []⟩ = (.notModified, []) :=
  conditional_request_short_circuit 20 (fun _ => none) (fun _ => .corrupt)
    ⟨[], true, [], false⟩ (fun _ => .error "e") (fun b => b) (fun b => b)
    runGood ⟨"notes", []⟩ (by decide)

/-- C4: loading a run's archive from the cache right after a successful
store of bytes for that run returns exactly the stored bytes. -/
theorem cache_round_trip (fs : FileSystem) (runId : Nat) (bytes : Bytes) :
    load (store fs runId bytes) runId = some bytes := by
  simp [load, store]

/-- C5: when the archive for a run is already in the on-disk cache,
`getChunkyCoreJar` uses the cached bytes, performs only the cache read
(no artifact-list lookup, no archive download, no cache write), and
marks the entry as coming from the cache (not freshly fetched). -/
theorem cache_hit_uses_cache_no_network (fs : FileSystem)
    (parseZip : Bytes → ZipParse) (world : FetchWorld) (run : WorkflowRun)
    (cached : Bytes) (e : ZipEntry)
    (hload : load fs run.id = some cached)
    (hparse : parseZip cached = .entry e) :
    getChunkyCoreJar fs parseZip world run
      = (.entryFound e true, [.cacheRead (artifactCachePath run.id)])
  ∧ ∀ eff ∈ (getChunkyCoreJar fs parseZip world run).2,
      (∀ url, eff ≠ .fetchArtifactsList url) ∧ (∀ url, eff ≠ .fetchArchive url)
        ∧ ∀ p b, eff ≠ .cacheWrite p b := by
  have hload' : fs (artifactCachePath run.id) = some cached := hload
  have hmain : getChunkyCoreJar fs parseZip world run
      = (.entryFound e true, [.cacheRead (artifactCachePath run.id)]) := by
    simp [getChunkyCoreJar, hload', hparse]
  refine ⟨hmain, ?_⟩
  intro eff heff
  rw [hmain] at heff
  simp at heff
  subst heff
  exact ⟨fun url => by simp, fun url => by simp, fun p b => by simp⟩

/-- Witness for C5 with a concrete cached archive for runGood. -/
theorem cache_hit_uses_cache_no_network_witness :
    getChunkyCoreJar (fun p => if p = artifactCachePath 2 then some [7] else none)
      (fun b => .entry ⟨"chunky-core.jar", 1, b⟩) ⟨[], true, [], false⟩ runGood
      = (.entryFound ⟨"chunky-core.jar", 1, [7]⟩ true,
         [.cacheRead (artifactCachePath 2)]) :=
  (cache_hit_uses_cache_no_network
    (fun p => if p = artifactCachePath 2 then some [7] else none)
    (fun b => .entry ⟨"chunky-core.jar", 1, b⟩) ⟨[], true, [], false⟩ runGood
    [7] ⟨"chunky-core.jar", 1, [7]⟩ (by simp [load, runGood]) rfl).1

/-- C8: a failing best-effort cache store after a fresh fetch is logged
and does not change the result handed to the in-flight request, which is
still the freshly fetched entry. -/
theorem cache_store_failure_nonfatal (fs : FileSystem)
    (parseZip : Bytes → ZipParse) (world : FetchWorld) (run : WorkflowRun)
    (b : Artifact) (e : ZipEntry)
    (hmiss : load fs run.id = none)
    (hfind : world.artifactsList.find? (fun a => a.name == chunkyCoreArtifactName)
      = some b)
    (hok : world.downloadOk = true)
    (hparse : parseZip world.downloadBody = .entry e)
    (hfail : world.storeFails = true) :
    (getChunkyCoreJar fs parseZip world run).1 = .entryFound e false
  ∧ Effect.logError (cacheFailLog run.id) ∈ (getChunkyCoreJar fs parseZip world run).2
  ∧ (getChunkyCoreJar fs parseZip world run).1
      = (getChunkyCoreJar fs parseZip
          ⟨world.artifactsList, world.downloadOk, world.downloadBody, false⟩ run).1 := by
  have hmiss' : fs (artifactCachePath run.id) = none := hmiss
  have h1 : getChunkyCoreJar fs parseZip world run
      = (.entryFound e false,
         [.cacheRead (artifactCachePath run.id),
          .fetchArtifactsList run.artifacts_url,
          .fetchArchive b.archive_download_url,
          .cacheWrite (artifactCachePath run.id) world.downloadBody,
          .logError (cacheFailLog run.id)]) := by
    simp [getChunkyCoreJar, hmiss', hfind, hok, hparse, hfail]
  have h2 : (getChunkyCoreJar fs parseZip
      ⟨world.artifactsList, world.downloadOk, world.downloadBody, false⟩ run).1
      = .entryFound e false := by
    simp [getChunkyCoreJar, hmiss', hfind, hok, hparse]
  refine ⟨by rw [h1], by rw [h1]; simp, by rw [h1, h2]⟩

/-- Witness for C8 at a concrete cache-miss world whose store fails. -/
theorem cache_store_failure_nonfatal_witness :
    (getChunkyCoreJar (fun _ => none) (fun bs => .entry ⟨"c.jar", 1, bs⟩)
      ⟨[⟨"Chunky Core", "dl"⟩], true, [9], true⟩ runGood).1
      = .entryFound ⟨"c.jar", 1, [9]⟩ false :=
  (cache_store_failure_nonfatal (fun _ => none)
    (fun bs => .entry ⟨"c.jar", 1, bs⟩) ⟨[⟨"Chunky Core", "dl"⟩], true, [9], true⟩
    runGood ⟨"Chunky Core", "dl"⟩ ⟨"c.jar", 1, [9]⟩ rfl (by decide) rfl rfl rfl).1

/-- Counterexample for C7: an absent "Chunky Core" artifact and a failed
archive download both make `getChunkyCoreJar` return the same bare
object (`zipFile == null` at every caller), so the two outcomes are not
distinct signals. -/
theorem obtain_conflates_missing_and_failed_download :
    (getChunkyCoreJar (fun _ => none) (fun _ => .corrupt)
        ⟨[], true, [], false⟩ runGood).1 = ObtainResult.empty
  ∧ (getChunkyCoreJar (fun _ => none) (fun _ => .corrupt)
        ⟨[⟨"Chunky Core", "dl"⟩], false, [], false⟩ runGood).1
      = ObtainResult.empty := by
  exact ⟨by decide, by decide⟩

/-- C7 amended: both the absence of a "Chunky Core" artifact and a
non-success archive download make `getChunkyCoreJar` return the same
empty result, which the serving layer reports as the artifact-specific
404 — distinct from the run-NotFound 404 and not a crash. -/
theorem obtain_empty_for_missing_or_failed (fs : FileSystem)
    (parseZip : Bytes → ZipParse) (world : FetchWorld)
    (openStream : ZipEntry → Except String Bytes) (run : WorkflowRun)
    (hmiss : load fs run.id = none) :
    (world.artifactsList.find? (fun a => a.name == chunkyCoreArtifactName) = none →
        (getChunkyCoreJar fs parseZip world run).1 = .empty)
  ∧ (world.downloadOk = false → (getChunkyCoreJar fs parseZip world run).1 = .empty)
  ∧ ((getChunkyCoreJar fs parseZip world run).1 = .empty →
        (serveChunkyCoreJar fs parseZip world openStream run).1 = .artifactNotFound)
  ∧ Response.artifactNotFound ≠ Response.runNotFound
  ∧ Response.artifactNotFound ≠ Response.crash := by
  have hmiss' : fs (artifactCachePath run.id) = none := hmiss
  refine ⟨?_, ?_, ?_, by simp, by simp⟩
  · intro hfind
    simp [getChunkyCoreJar, hmiss', hfind]
  · intro hdl
    cases hfind : world.artifactsList.find? (fun a => a.name == chunkyCoreArtifactName) with
    | none => simp [getChunkyCoreJar, hmiss', hfind]
    | some b => simp [getChunkyCoreJar, hmiss', hfind, hdl]
  · intro hempty
    simp [serveChunkyCoreJar, hempty]

/-- Witness for C7's amended statement at a concrete cache-miss world
with no matching artifact. -/
theorem obtain_empty_for_missing_or_failed_witness :
    (getChunkyCoreJar (fun _ => none) (fun _ => ZipParse.corrupt)
        ⟨[], true, [], false⟩ runPending).1 = .empty :=
  (obtain_empty_for_missing_or_failed (fun _ => none) (fun _ => ZipParse.corrupt)
    ⟨[], true, [], false⟩ (fun _ => .error "e") runPending rfl).1 (by decide)

/-- Counterexample for C6: a non-success HTTP response (ok = false) whose
JSON body carries no head commit makes `getWorkflowRunsForPullRequest`
return null — reported as NotFound, not as a thrown LocatorFailure. The
locator never inspects the HTTP status flag. -/
theorem locator_http_error_reported_as_notFound :
    getWorkflowRunsForPullRequest (.response ⟨false, some ⟨none⟩⟩)
      (.response ⟨false, some ⟨some []⟩⟩) = .notFound
  ∧ LocateResult.notFound ≠ .thrown :=
  ⟨rfl, by simp⟩

/-- C6 amended: a rejected fetch promise (network error) and a body that
fails JSON decoding propagate as thrown failures from both locators, and
a runs body without a workflow_runs field raises a thrown TypeError; but
a PR response body without a head commit — whatever the HTTP status —
is reported as NotFound, because the locator never checks the status. -/
theorem locator_failure_modes (okF okF2 : Bool) (pb : PullBody) (rb : RunsBody)
    (sha : String) :
    (∀ rf, getWorkflowRunsForPullRequest .netError rf = .thrown)
  ∧ (∀ rf, getWorkflowRunsForPullRequest (.response ⟨okF, none⟩) rf = .thrown)
  ∧ (pb.head = none →
      ∀ rf, getWorkflowRunsForPullRequest (.response ⟨okF, some pb⟩) rf = .notFound)
  ∧ (pb.head = some sha → rb.workflow_runs = none →
      getWorkflowRunsForPullRequest (.response ⟨okF, some pb⟩)
        (.response ⟨okF2, some rb⟩) = .thrown)
  ∧ getWorkflowRunsForBranch .netError = .thrown
  ∧ getWorkflowRunsForBranch (.response ⟨okF, none⟩) = .thrown
  ∧ (rb.workflow_runs = none →
      getWorkflowRunsForBranch (.response ⟨okF, some rb⟩) = .thrown) := by
  refine ⟨fun rf => rfl, fun rf => rfl, ?_, ?_, rfl, rfl, ?_⟩
  · intro h rf
    simp [getWorkflowRunsForPullRequest, h]
  · intro h1 h2
    simp [getWorkflowRunsForPullRequest, h1, h2]
  · intro h
    simp [getWorkflowRunsForBranch, h]

/-- Witness for C6's amended statement: a headless PR body yields
NotFound even when the runs fetch would have failed outright. -/
theorem locator_failure_modes_witness :
    getWorkflowRunsForPullRequest (.response ⟨true, some ⟨none⟩⟩) .netError
      = .notFound :=
  (locator_failure_modes true true ⟨none⟩ ⟨none⟩ "abc").2.2.1 rfl .netError

/-- Helper: uppercasing a lowercase hex digit gives the uppercase hex
digit of the same nibble. -/
theorem toUpper_hexDigitLower (n : Nat) :
    Char.toUpper (hexDigitLower n) = hexDigitUpper n := by
  have hm : n % 16 < 16 := Nat.mod_lt _ (by norm_num)
  have key : ∀ m, m < 16 → Char.toUpper (hexDigitLower m) = hexDigitUpper m := by
    decide
  have e1 : hexDigitLower n = hexDigitLower (n % 16) := by
    simp [hexDigitLower, Nat.mod_mod_of_dvd n (dvd_refl 16)]
  have e2 : hexDigitUpper n = hexDigitUpper (n % 16) := by
    simp [hexDigitUpper, Nat.mod_mod_of_dvd n (dvd_refl 16)]
  rw [e1, e2]
  exact key _ hm

/-- Helper: mapping `Char.toUpper` over the lowercase hex character list
of a buffer yields its uppercase hex character list. -/
theorem map_toUpper_hexChars (bs : Bytes) :
    (bs.foldr (fun b acc => hexDigitLower (b / 16) :: hexDigitLower (b % 16) :: acc)
        []).map Char.toUpper
      = bs.foldr (fun b acc => hexDigitUpper (b / 16) :: hexDigitUpper (b % 16) :: acc)
        [] := by
  induction bs with
  | nil => rfl
  | cons b bs ih => simp [toUpper_hexDigitLower, ih]

/-- Helper: uppercasing the lowercase hexadecimal encoding of a buffer is
its uppercase hexadecimal encoding. -/
theorem toUpperCase_hexEncodeLower (bs : Bytes) :
    toUpperCase (hexEncodeLower bs) = hexEncodeUpper bs := by
  simp [toUpperCase, hexEncodeLower, hexEncodeUpper, map_toUpper_hexChars]

/-- C3: digesting a located entry with the md5 and sha256 hash functions
produces exactly the uppercase hexadecimal encodings of the two raw
digests of the entry's decompressed content (all of its bytes, and
nothing else, are fed to each hash), and re-running the computation on
the same buffer yields the identical pair. -/
theorem digest_entry_uppercase_hex (openStream : ZipEntry → Except String Bytes)
    (md5 sha256 : Bytes → Bytes) (e : ZipEntry)
    (hopen : openStream e = .ok e.content) :
    digestEntry openStream md5 sha256 e
      = some (hexEncodeUpper (md5 e.content), hexEncodeUpper (sha256 e.content))
  ∧ digestEntry openStream md5 sha256 e = digestEntry openStream md5 sha256 e := by
  refine ⟨?_, rfl⟩
  simp [digestEntry, hopen, computeDigest, toUpperCase_hexEncodeLower]

/-- Witness for C3 on a two-byte entry with identity and reverse standing
in for the external raw hash primitives. -/
theorem digest_entry_uppercase_hex_witness :
    digestEntry (fun x => Except.ok x.content) (fun b => b) (fun b => b.reverse)
      ⟨"foo.jar", 2, [0, 255]⟩
      = some (hexEncodeUpper [0, 255], hexEncodeUpper [255, 0]) :=
  (digest_entry_uppercase_hex (fun x => Except.ok x.content) (fun b => b)
    (fun b => b.reverse) ⟨"foo.jar", 2, [0, 255]⟩ rfl).1

/-- Counterexample for C9: with the archive cached and the entry located,
a stream-open failure on the digest path does not surface as an internal
error — the source ignores the callback's err argument there, the
callback throws on the undefined stream, and the request crashes with
the digest promise never resolving. -/
theorem digest_open_error_not_internal_error :
    (serveJsonForWorkflowRun none (fun _ => some [1])
        (fun b => .entry ⟨"a.jar", 1, b⟩) ⟨[], true, [], false⟩
        (fun _ => .error "boom") (fun b => b) (fun b => b) runGood ⟨"n", []⟩).1
      = Response.crash
  ∧ ∀ msg, Response.crash ≠ .internalError msg :=
  ⟨by decide, fun msg => by simp⟩

/-- C9 amended: a stream-open failure after the entry was located
surfaces as the 500 internal error (distinct from both 404 outcomes) on
the binary streaming path; on the digest path the error argument is
ignored, so the request crashes rather than answering 500 — but the
digest computation never resolves to a success-shaped value and the JSON
success response is never produced. -/
theorem stream_open_failure_handling (fs : FileSystem)
    (parseZip : Bytes → ZipParse) (world : FetchWorld)
    (openStream : ZipEntry → Except String Bytes) (md5 sha256 : Bytes → Bytes)
    (run : WorkflowRun) (template : JsonTemplate) (e : ZipEntry) (fc : Bool)
    (msg : String)
    (hobtain : (getChunkyCoreJar fs parseZip world run).1 = .entryFound e fc)
    (hopen : openStream e = .error msg) :
    (serveChunkyCoreJar fs parseZip world openStream run).1
        = .internalError "failed to read artifact zip file"
  ∧ (∀ m, Response.internalError m ≠ .artifactNotFound
        ∧ Response.internalError m ≠ .runNotFound)
  ∧ digestEntry openStream md5 sha256 e = none
  ∧ (serveJsonForWorkflowRun none fs parseZip world openStream md5 sha256
        run template).1 = .crash
  ∧ (∀ nts nm ts libs,
      (serveJsonForWorkflowRun none fs parseZip world openStream md5 sha256
          run template).1 ≠ .jsonOk nts nm ts libs) := by
  have hjson : (serveJsonForWorkflowRun none fs parseZip world openStream md5 sha256
      run template).1 = .crash := by
    simp [serveJsonForWorkflowRun, imsNotNewer, servePipeline, hobtain,
      digestEntry, hopen]
  refine ⟨?_, fun m => ⟨by simp, by simp⟩, ?_, hjson, ?_⟩
  · simp [serveChunkyCoreJar, hobtain, hopen]
  · simp [digestEntry, hopen]
  · intro nts nm ts libs
    rw [hjson]
    simp

/-- Witness for C9's amended statement at a concrete cached archive whose
stream open fails. -/
theorem stream_open_failure_handling_witness :
    (serveChunkyCoreJar (fun _ => some [1]) (fun b => .entry ⟨"a.jar", 1, b⟩)
        ⟨[], true, [], false⟩ (fun _ => .error "boom") runGood).1
      = .internalError "failed to read artifact zip file" :=
  (stream_open_failure_handling (fun _ => some [1])
    (fun b => .entry ⟨"a.jar", 1, b⟩) ⟨[], true, [], false⟩
    (fun _ => .error "boom") (fun b => b) (fun b => b) runGood ⟨"n", []⟩
    ⟨"a.jar", 1, [1]⟩ true "boom" (by decide) rfl).1

/-- Helper: the effect trace of `getChunkyCoreJar` always begins with the
cache read at the run's archive path. -/
theorem getChunkyCoreJar_effects_head (fs : FileSystem)
    (parseZip : Bytes → ZipParse) (world : FetchWorld) (run : WorkflowRun) :
    ∃ rest, (getChunkyCoreJar fs parseZip world run).2
      = Effect.cacheRead (artifactCachePath run.id) :: rest := by
  cases hfs : fs (artifactCachePath run.id) with
  | some cached =>
    cases hp : parseZip cached <;>
      exact ⟨[], by simp [getChunkyCoreJar, hfs, hp]⟩
  | none =>
    cases hfind : world.artifactsList.find? (fun a => a.name == chunkyCoreArtifactName) with
    | none =>
      exact ⟨[.fetchArtifactsList run.artifacts_url],
        by simp [getChunkyCoreJar, hfs, hfind]⟩
    | some b =>
      cases hdl : world.downloadOk with
      | false =>
        exact ⟨[.fetchArtifactsList run.artifacts_url,
                .fetchArchive b.archive_download_url],
          by simp [getChunkyCoreJar, hfs, hfind, hdl]⟩
      | true =>
        cases hp : parseZip world.downloadBody with
        | corrupt =>
          exact ⟨[.fetchArtifactsList run.artifacts_url,
                  .fetchArchive b.archive_download_url],
            by simp [getChunkyCoreJar, hfs, hfind, hdl, hp]⟩
        | entry e =>
          exact ⟨Effect.fetchArtifactsList run.artifacts_url
              :: Effect.fetchArchive b.archive_download_url
              :: Effect.cacheWrite (artifactCachePath run.id) world.downloadBody
              :: (if world.storeFails = true then [Effect.logError (cacheFailLog run.id)]
                  else []),
            by simp [getChunkyCoreJar, hfs, hfind, hdl, hp]⟩

/-- Helper: the JSON pipeline tail passes the obtain effect trace through
unchanged. -/
theorem servePipeline_effects (fs : FileSystem) (parseZip : Bytes → ZipParse)
    (world : FetchWorld) (openStream : ZipEntry → Except String Bytes)
    (md5 sha256 : Bytes → Bytes) (run : WorkflowRun) (template : JsonTemplate) :
    (servePipeline fs parseZip world openStream md5 sha256 run template).2
      = (getChunkyCoreJar fs parseZip world run).2 := by
  cases hg : (getChunkyCoreJar fs parseZip world run).1 with
  | empty => simp [servePipeline, hg]
  | corruptThrown => simp [servePipeline, hg]
  | entryFound e fc =>
    cases hd : digestEntry openStream md5 sha256 e with
    | none => simp [servePipeline, hg, hd]
    | some ds => simp [servePipeline, hg, hd]

/-- Helper: the JSON pipeline tail never answers 304. -/
theorem servePipeline_not_notModified (fs : FileSystem)
    (parseZip : Bytes → ZipParse) (world : FetchWorld)
    (openStream : ZipEntry → Except String Bytes) (md5 sha256 : Bytes → Bytes)
    (run : WorkflowRun) (template : JsonTemplate) :
    (servePipeline fs parseZip world openStream md5 sha256 run template).1
      ≠ .notModified := by
  cases hg : (getChunkyCoreJar fs parseZip world run).1 with
  | empty => simp [servePipeline, hg]
  | corruptThrown => simp [servePipeline, hg]
  | entryFound e fc =>
    cases hd : digestEntry openStream md5 sha256 e with
    | none => simp [servePipeline, hg, hd]
    | some ds => simp [servePipeline, hg, hd]

/-- C10: without an If-Modified-Since header, or with one that does not
parse as a valid date (modelled as `none`, whose Invalid-Date comparison
is false), serving equals the full pipeline tail: the 304 branch is
unreachable and the effect trace always begins with the cache read that
starts the obtain stage, whose result is then digested and served. -/
theorem no_conditional_header_always_proceeds (fs : FileSystem)
    (parseZip : Bytes → ZipParse) (world : FetchWorld)
    (openStream : ZipEntry → Except String Bytes) (md5 sha256 : Bytes → Bytes)
    (run : WorkflowRun) (template : JsonTemplate) :
    serveJsonForWorkflowRun none fs parseZip world openStream md5 sha256 run template
      = servePipeline fs parseZip world openStream md5 sha256 run template
  ∧ (serveJsonForWorkflowRun none fs parseZip world openStream md5 sha256
        run template).1 ≠ .notModified
  ∧ ∃ rest, (serveJsonForWorkflowRun none fs parseZip world openStream md5 sha256
        run template).2 = Effect.cacheRead (artifactCachePath run.id) :: rest := by
  have h0 : serveJsonForWorkflowRun none fs parseZip world openStream md5 sha256
      run template
      = servePipeline fs parseZip world openStream md5 sha256 run template := by
    simp [serveJsonForWorkflowRun, imsNotNewer]
  refine ⟨h0, ?_, ?_⟩
  · rw [h0]
    exact servePipeline_not_notModified fs parseZip world openStream md5 sha256
      run template
  · rw [h0, servePipeline_effects]
    exact getChunkyCoreJar_effects_head fs parseZip world run

end ChunkyPR
